import Mathlib

/-!
Verification of `automate-machine-ui-fixes.py` (FactoryForge).

The script is a single-file workflow tool: it loads JSON schema files and
cached test results from disk, calls a remote service over HTTP to test or
reload a schema, derives fix suggestions from substring matches on error
strings, renders a markdown prompt, and orchestrates a fix flow and a
verify flow.

Shallow embedding conventions:
* JSON values are the inductive `Json` (numbers as `Int`; the schemas and
  results handled by the tool carry no floats on any path exercised here).
  Python dicts are insertion-ordered association lists with unique keys.
* The filesystem is a map from path strings to file entries; a file written
  by `json.dump` is a `.jsonFile`, a text file (or a file that is not valid
  JSON) is a `.textFile`.
* The two outbound HTTP calls are modelled by an environment-supplied
  `HttpOutcome`: either a parsed 2xx JSON body, or a failure carrying the
  exception text (network error, timeout, non-2xx, malformed JSON all
  become `requests` exceptions caught by the script).
* Fallible Python code (KeyError, AttributeError, TypeError, JSON parse
  errors on local files) is modelled with `Except String`.
* `print` output is ignored except in `verify_fix`, whose stdout lines are
  returned as a log list (one claim is about a printed warning).
-/

/-! ## Characters and strings: Python `str.lower`, `in`, slicing -/

/-- ASCII lowercasing of one character, as Python `str.lower` acts on the
ASCII range (all strings matched by the script are ASCII). -/
def lowerChar (c : Char) : Char :=
  if 65 ≤ c.toNat ∧ c.toNat ≤ 90 then Char.ofNat (c.toNat + 32) else c

/-- Python `s.lower()`. -/
def lowerStr (s : String) : String := ⟨s.data.map lowerChar⟩

/-- Whether `p` starts the list `l`. -/
def prefCL : List Char → List Char → Bool
  | [], _ => true
  | _ :: _, [] => false
  | a :: as, b :: bs => a == b && prefCL as bs

/-- Whether `p` occurs contiguously inside `l`. -/
def hasSub (p : List Char) : List Char → Bool
  | [] => prefCL p []
  | b :: bs => prefCL p (b :: bs) || hasSub p bs

/-- Python `pat in hay` for strings. -/
def strContains (hay pat : String) : Bool := hasSub pat.data hay.data

/-- Python `s[:n]` (slice of the first `n` code points). -/
def strTake (s : String) (n : Nat) : String := ⟨s.data.take n⟩

/-! ## JSON values -/

/-- JSON values, as produced by `json.load` / consumed by `json.dump`.
Objects are insertion-ordered lists of key-value pairs with unique keys. -/
inductive Json where
  | null : Json
  | bool : Bool → Json
  | num : Int → Json
  | str : String → Json
  | arr : List Json → Json
  | obj : List (String × Json) → Json

/-- Python truthiness of a JSON value (`if x:`). -/
def truthy : Json → Bool
  | .null => false
  | .bool b => b
  | .num n => n != 0
  | .str s => !s.data.isEmpty
  | .arr xs => !xs.isEmpty
  | .obj fs => !fs.isEmpty

/-- First-match lookup in an association list (Python dict lookup; keys of a
parsed or literal dict are unique, so first match is the dict entry). -/
def lookupF : List (String × Json) → String → Option Json
  | [], _ => none
  | (k, v) :: fs, key => if k == key then some v else lookupF fs key

/-- `d.get(k)` on a value statically known to be a dict: `none` when the key
is absent (Python `None`). Returns `none` on a non-dict as well; used only
on dicts built by the script itself. -/
def pyGet (j : Json) (k : String) : Option Json :=
  match j with
  | .obj fs => lookupF fs k
  | _ => none

/-- `x.get(k)` on external data: AttributeError when `x` is not a dict. -/
def dictGet (j : Json) (k : String) : Except String (Option Json) :=
  match j with
  | .obj fs => .ok (lookupF fs k)
  | _ => .error "AttributeError: get"

/-- `x[k]`: KeyError when the key is absent, TypeError on a non-dict. -/
def dictIdx (j : Json) (k : String) : Except String Json :=
  match j with
  | .obj fs =>
    match lookupF fs k with
    | some v => .ok v
    | none => .error ("KeyError: " ++ k)
  | _ => .error "TypeError: not subscriptable"

/-- Python `len(x)`: defined for lists, dicts and strings, TypeError
otherwise. -/
def pyLen : Json → Except String Nat
  | .arr xs => .ok xs.length
  | .obj fs => .ok fs.length
  | .str s => .ok s.data.length
  | _ => .error "TypeError: len"

/-- Python `for x in v`: lists yield elements, strings yield one-character
strings, dicts yield their keys; other values raise TypeError. -/
def iterJ : Json → Except String (List Json)
  | .arr xs => .ok xs
  | .str s => .ok (s.data.map (fun c => .str ⟨[c]⟩))
  | .obj fs => .ok (fs.map (fun kv => .str kv.1))
  | _ => .error "TypeError: not iterable"

/-- All elements of a list are JSON strings. -/
def allStr : List Json → Bool
  | [] => true
  | .str _ :: rest => allStr rest
  | _ :: _ => false

/-! ## Serialization: `json.dumps(x, indent=2)` -/

/-- One hexadecimal digit. -/
def hexDigit (n : Nat) : Char :=
  if n < 10 then Char.ofNat (48 + n) else Char.ofNat (87 + n)

/-- JSON string escaping as `json.dumps` performs it with the default
`ensure_ascii` (control and non-ASCII characters become escapes). -/
def escChar (c : Char) : String :=
  if c == '"' then "\\\""
  else if c == '\\' then "\\\\"
  else if c == '\n' then "\\n"
  else if c == '\t' then "\\t"
  else if c == '\r' then "\\r"
  else if c.toNat < 32 || 127 ≤ c.toNat then
    "\\u" ++ ⟨[hexDigit (c.toNat / 4096 % 16), hexDigit (c.toNat / 256 % 16),
               hexDigit (c.toNat / 16 % 16), hexDigit (c.toNat % 16)]⟩
  else ⟨[c]⟩

/-- Quoted JSON string literal. -/
def quoteJ (s : String) : String :=
  "\"" ++ String.join (s.data.map escChar) ++ "\""

/-- Indentation of `2 * lvl` spaces. -/
def pad (lvl : Nat) : String := ⟨List.replicate (2 * lvl) ' '⟩

/-- Separator-joined concatenation. -/
def joinSep (sep : String) : List String → String
  | [] => ""
  | [x] => x
  | x :: xs => x ++ sep ++ joinSep sep xs

/-- Nesting-depth budget used by the serializer: any document the tool
ever serializes is vastly shallower, so the zero-fuel branch of `dumpV`
is unreachable; the fuel exists only to make the recursion structural. -/
def dumpFuel : Nat := 1000000

/-- Pretty-printer worker for `json.dumps(x, indent=2)`. The fuel argument
strictly exceeds the value depth at every call from `dumps`, so the
zero-fuel branch is unreachable; it exists only to make the recursion
structural. -/
def dumpV : Nat → Nat → Json → String
  | 0, _, _ => ""
  | _ + 1, _, .null => "null"
  | _ + 1, _, .bool true => "true"
  | _ + 1, _, .bool false => "false"
  | _ + 1, _, .num n => toString n
  | _ + 1, _, .str s => quoteJ s
  | _ + 1, _, .arr [] => "[]"
  | fuel + 1, lvl, .arr (x :: xs) =>
    "[\n" ++ joinSep ",\n" ((x :: xs).map (fun v => pad (lvl + 1) ++ dumpV fuel (lvl + 1) v))
    ++ "\n" ++ pad lvl ++ "]"
  | _ + 1, _, .obj [] => "\x7b\x7d"
  | fuel + 1, lvl, .obj (f :: fs) =>
    "\x7b\n" ++ joinSep ",\n" ((f :: fs).map
      (fun kv => pad (lvl + 1) ++ quoteJ kv.1 ++ ": " ++ dumpV fuel (lvl + 1) kv.2))
    ++ "\n" ++ pad lvl ++ "\x7d"

/-- `json.dumps(j, indent=2)`. -/
def dumps (j : Json) : String := dumpV dumpFuel 0 j

/-- Python `str(x)` as used in f-strings of the prompt formatter: the values
interpolated there are always JSON strings; the fallback renders other
values via the serializer (unreachable on the script's flows). -/
def pyStr : Json → String
  | .str s => s
  | j => dumps j

/-! ## Filesystem and configuration -/

/-- A file on disk: either a JSON document (as written by `json.dump` /
readable by `json.load`) or plain text (prompt files; also any file that
`json.load` would reject). -/
inductive Entry where
  | jsonFile : Json → Entry
  | textFile : String → Entry

/-- The filesystem: a map from path strings to file entries. -/
def FS := String → Option Entry

/-- The empty filesystem. -/
def emptyFS : FS := fun _ => none

/-- Overwrite one file (full-file write, as the script always does). -/
def FS.write (st : FS) (p : String) (e : Entry) : FS :=
  fun q => if q = p then some e else st q

/-- Configuration of `MachineUISchemaFixer.__init__`: the three
environment-overridable values `SCHEMA_DIR`, `OUTPUT_DIR`,
`MCP_SERVER_URL`. The URL only addresses the remote service, which is
modelled by `HttpOutcome`, so it is carried but not consumed. -/
structure Fixer where
  schema_dir : String
  output_dir : String
  mcp_server_url : String

/-- Path `self.schema_dir / f"{machine_type}_schema.json"`. -/
def schemaPath (fx : Fixer) (key : String) : String :=
  fx.schema_dir ++ "/" ++ key ++ "_schema.json"

/-- Path `self.output_dir / f"{machine_type}_test_raw.json"`. -/
def resultPath (fx : Fixer) (key : String) : String :=
  fx.output_dir ++ "/" ++ key ++ "_test_raw.json"

/-- Path `self.output_dir / f"{machine_type}_fix_prompt.md"`. -/
def promptPath (fx : Fixer) (key : String) : String :=
  fx.output_dir ++ "/" ++ key ++ "_fix_prompt.md"

/-- Outcome of one HTTP POST as the script observes it: either a parsed
JSON body from a 2xx response, or an exception (connection error, timeout,
non-2xx raised by `raise_for_status`, malformed JSON raised by
`response.json()`) carrying its message text. -/
inductive HttpOutcome where
  | ok : Json → HttpOutcome
  | fail : String → HttpOutcome

/-! ## Accessors (`load_test_results`, `load_schema`, `save_schema`) -/

/-- `MachineUISchemaFixer.load_test_results`: empty dict when the file is
absent, `json.load` otherwise (a non-JSON file raises, propagated). -/
def load_test_results (fx : Fixer) (st : FS) (key : String) : Except String Json :=
  match st (resultPath fx key) with
  | none => .ok (.obj [])
  | some (.jsonFile j) => .ok j
  | some (.textFile _) => .error "JSONDecodeError"

/-- `MachineUISchemaFixer.load_schema`: empty dict when the file is absent,
`json.load` otherwise. -/
def load_schema (fx : Fixer) (st : FS) (key : String) : Except String Json :=
  match st (schemaPath fx key) with
  | none => .ok (.obj [])
  | some (.jsonFile j) => .ok j
  | some (.textFile _) => .error "JSONDecodeError"

/-- `MachineUISchemaFixer.save_schema`: writes the serialized document and
returns `true`; an I/O error (environment flag `io_ok = false`) is caught,
logged to stderr and surfaced as `false` with the file untouched. -/
def save_schema (fx : Fixer) (st : FS) (key : String) (schema : Json)
    (io_ok : Bool) : Bool × FS :=
  if io_ok then (true, st.write (schemaPath fx key) (.jsonFile schema))
  else (false, st)

/-! ## Remote client (`test_schema`, `reload_schema`) -/

/-- `MachineUISchemaFixer.test_schema`: on a parsed 2xx response the raw
result is persisted verbatim to the result file and returned; on any
exception the synthesized failure object is returned and nothing is
written. -/
def test_schema (fx : Fixer) (st : FS) (resp : HttpOutcome) (key : String) :
    Json × FS :=
  match resp with
  | .ok result => (result, st.write (resultPath fx key) (.jsonFile result))
  | .fail msg => (.obj [("success", .bool false), ("error", .str msg)], st)

/-- `MachineUISchemaFixer.reload_schema`: the `success` field of the parsed
response (absent defaults to `False`), `false` on any exception (also an
AttributeError from `.get` on a non-dict body, caught by the same
handler). The returned value is only ever used for its truthiness, which
is applied here. -/
def reload_schema (resp : HttpOutcome) : Bool :=
  match resp with
  | .ok body =>
    match body with
    | .obj fs => truthy ((lookupF fs "success").getD (.bool false))
    | _ => false
  | .fail _ => false

/-! ## Suggestion generator (`get_fix_suggestions`) -/

/-- The sentinel returned when no test results are loaded. -/
def sentinelObj : Json := .obj [("error", .str "No test results found")]

/-- The body of the error-analysis loop of `get_fix_suggestions` for one
error string: the ordered substring-match rules applied to the lowercased
error, returning the appended fix entry if any branch fires. The nested
conditional mirrors the source exactly: the `validation failed / missing`
tier, once entered, never falls through to the `invalid / flow` tier. -/
def classifyError (fx : Fixer) (key : String) (e : String) : Option Json :=
  let el := lowerStr e
  if strContains el "not found" || strContains el "file not found" then
    some (.obj [("issue", .str "Schema file missing"),
                ("action", .str ("Create " ++ key ++ "_schema.json in " ++ fx.schema_dir)),
                ("priority", .str "high")])
  else if strContains el "validation failed" || strContains el "missing" then
    if strContains el "header" then
      some (.obj [("issue", .str "Missing group header"),
                  ("action", .str "Add \x27header\x27 field to all groups in schema"),
                  ("priority", .str "high"),
                  ("schema_section", .str "groups")])
    else if strContains el "process" && strContains el "label" then
      some (.obj [("issue", .str "Missing process label"),
                  ("action", .str "Add \x27label.text\x27 field to process in schema"),
                  ("priority", .str "high"),
                  ("schema_section", .str "process")])
    else none
  else if strContains el "invalid" || strContains el "flow" then
    some (.obj [("issue", .str "Invalid flow position"),
                ("action", .str "Check group anchor positions relative to process anchor"),
                ("priority", .str "medium"),
                ("schema_section", .str "groups")])
  else none

/-- The full error loop: appends the fix entry of each error in order; a
non-string element raises AttributeError at `error.lower()`. -/
def suggList (fx : Fixer) (key : String) : List Json → Except String (List Json)
  | [] => .ok []
  | .str e :: rest =>
    match classifyError fx key e with
    | some f => (suggList fx key rest).map (fun r => f :: r)
    | none => suggList fx key rest
  | _ :: _ => .error "AttributeError: lower"

/-- The schema summary computed when the loaded schema is truthy:
`machineKind`, `version`, `len(groups)`, key-presence of `process` and
`recipes`. A truthy non-dict schema raises at `.get`; `len` of an
unsized `groups` value raises TypeError. -/
def snippetOf (schema : Json) : Except String Json :=
  match schema with
  | .obj fs =>
    match pyLen ((lookupF fs "groups").getD (.arr [])) with
    | .error e => .error e
    | .ok n => .ok (.obj [
        ("machineKind", (lookupF fs "machineKind").getD .null),
        ("version", (lookupF fs "version").getD .null),
        ("groups_count", .num (Int.ofNat n)),
        ("has_process", .bool (lookupF fs "process").isSome),
        ("has_recipes", .bool (lookupF fs "recipes").isSome)])
  | _ => .error "AttributeError: get"

/-- `MachineUISchemaFixer.get_fix_suggestions`: loads the test results and
the schema (in that order, parse errors propagating), returns the sentinel
when the result is falsy, otherwise runs the rule loop over the errors and
attaches the raw errors/warnings and the schema snippet. -/
def get_fix_suggestions (fx : Fixer) (st : FS) (key : String) : Except String Json :=
  match load_test_results fx st key with
  | .error e => .error e
  | .ok tr =>
    match load_schema fx st key with
    | .error e => .error e
    | .ok schema =>
      if truthy tr then
        match tr with
        | .obj trf =>
          let errVal := (lookupF trf "errors").getD (.arr [])
          let wVal := (lookupF trf "warnings").getD (.arr [])
          match iterJ errVal with
          | .error e => .error e
          | .ok its =>
            match suggList fx key its with
            | .error e => .error e
            | .ok fixes =>
              match (if truthy schema then snippetOf schema else .ok (.obj [])) with
              | .error e => .error e
              | .ok snip => .ok (.obj [
                  ("machine_type", .str key),
                  ("schema_file", .str (schemaPath fx key)),
                  ("errors", errVal),
                  ("warnings", wVal),
                  ("fixes_needed", .arr fixes),
                  ("schema_snippet", snip)])
        | _ => .error "AttributeError: get"
      else .ok sentinelObj

/-! ## Prompt formatter (`generate_llm_prompt`) -/

/-- One `- {x}\n` bullet line per element. -/
def bulletLines : List Json → String
  | [] => ""
  | x :: xs => "- " ++ pyStr x ++ "\n" ++ bulletLines xs

/-- An errors/warnings section of the prompt: emitted only when the value
is present and truthy; iteration over it can raise (a truthy non-iterable
`warnings` value, for instance). -/
def secE (v : Option Json) (title : String) : Except String String :=
  match v with
  | none => .ok ""
  | some j =>
    if truthy j then
      match iterJ j with
      | .error e => .error e
      | .ok xs => .ok (title ++ bulletLines xs ++ "\n")
    else .ok ""

/-- The per-fix lines of the fixes section; `fix['issue']`,
`fix['priority']`, `fix['action']` are dict indexing and can raise
KeyError (never on entries built by `classifyError`, which carry all
three). -/
def fixLinesE : List Json → Except String String
  | [] => .ok ""
  | f :: fs =>
    match dictIdx f "issue" with
    | .error e => .error e
    | .ok iv =>
      match dictIdx f "priority" with
      | .error e => .error e
      | .ok pv =>
        match dictIdx f "action" with
        | .error e => .error e
        | .ok av =>
          (fixLinesE fs).map (fun rest =>
            "- **" ++ pyStr iv ++ "** (Priority: " ++ pyStr pv ++ ")\n"
            ++ "  - Action: " ++ pyStr av ++ "\n" ++ rest)

/-- The fixes section, emitted only when `fixes_needed` is truthy. -/
def fixSecE (v : Option Json) : Except String String :=
  match v with
  | none => .ok ""
  | some j =>
    if truthy j then
      match iterJ j with
      | .error e => .error e
      | .ok xs => (fixLinesE xs).map (fun b => "### Fixes Needed:\n" ++ b ++ "\n")
    else .ok ""

/-- `MachineUISchemaFixer.generate_llm_prompt`: recomputes the suggestions,
reloads the schema, renders the sections in order, and closes with the
schema file location (`suggestions['schema_file']`: a KeyError when the
suggestions are the sentinel) and the truncated schema dump. -/
def generate_llm_prompt (fx : Fixer) (st : FS) (key : String) :
    Except String String :=
  match get_fix_suggestions fx st key with
  | .error e => .error e
  | .ok s =>
    match load_schema fx st key with
    | .error e => .error e
    | .ok schema =>
      match secE (pyGet s "errors") "### Errors:\n" with
      | .error e => .error e
      | .ok errSec =>
        match secE (pyGet s "warnings") "### Warnings:\n" with
        | .error e => .error e
        | .ok warnSec =>
          match fixSecE (pyGet s "fixes_needed") with
          | .error e => .error e
          | .ok fixSec =>
            match dictIdx s "schema_file" with
            | .error e => .error e
            | .ok sf => .ok (
                "# Fix MachineUI Schema: " ++ key ++ "\n\n## Current Issues\n\n"
                ++ errSec ++ warnSec ++ fixSec
                ++ "## Schema File Location\n" ++ pyStr sf
                ++ "\n\n## Current Schema Structure\n```json\n"
                ++ strTake (dumps schema) 1000
                ++ "...\n```\n\n## Task\nPlease fix the schema file to resolve the errors and warnings listed above.\nThe schema file is located at: "
                ++ pyStr sf
                ++ "\n\nAfter fixing, the schema will be automatically tested and reloaded in the app.\n")

/-! ## Workflow orchestrator (`run_fix_workflow`, `verify_fix`) -/

/-- `MachineUISchemaFixer.run_fix_workflow`: test, and on a truthy
`success` return immediately; otherwise generate suggestions, generate and
write the prompt file, and return the failure/fixes-needed structure. The
progress prints are ignored except that the print of
`suggestions['schema_file']` and the returned `schema_file` entry both
index the suggestions dict (a KeyError when it is the sentinel; the
earlier identical indexing inside `generate_llm_prompt` raises first). -/
def run_fix_workflow (fx : Fixer) (st : FS) (resp : HttpOutcome) (key : String) :
    Except String (Json × FS) :=
  let r := test_schema fx st resp key
  match dictGet r.1 "success" with
  | .error e => .error e
  | .ok so =>
    if truthy (so.getD .null) then
      .ok (.obj [("success", .bool true), ("message", .str "No fixes needed")], r.2)
    else
      match get_fix_suggestions fx r.2 key with
      | .error e => .error e
      | .ok suggestions =>
        match generate_llm_prompt fx r.2 key with
        | .error e => .error e
        | .ok prompt =>
          let st2 := r.2.write (promptPath fx key) (.textFile prompt)
          match dictIdx suggestions "schema_file" with
          | .error e => .error e
          | .ok sf => .ok (.obj [
              ("success", .bool false),
              ("fixes_needed", .bool true),
              ("prompt_file", .str (promptPath fx key)),
              ("schema_file", sf),
              ("suggestions", suggestions)], st2)

/-- `MachineUISchemaFixer.verify_fix`: test, and on a truthy `success`
attempt the reload (its outcome only selects a printed line) and return
success with the test result; otherwise print each error and return
failure with the test result. The third component is the stdout log. -/
def verify_fix (fx : Fixer) (st : FS) (testResp reloadResp : HttpOutcome)
    (key : String) : Except String (Json × FS × List String) :=
  let l0 := "Verifying fix for: " ++ key
  let r := test_schema fx st testResp key
  match dictGet r.1 "success" with
  | .error e => .error e
  | .ok so =>
    if truthy (so.getD .null) then
      .ok (.obj [("success", .bool true), ("test_result", r.1)], r.2,
        [l0, "✓ Schema for " ++ key ++ " is now valid!",
         "Reloading schema in app...",
         if reload_schema reloadResp then "✓ Schema reloaded successfully!"
         else "⚠ Could not reload schema (app may not be running)"])
    else
      match dictGet r.1 "errors" with
      | .error e => .error e
      | .ok ev =>
        match iterJ (ev.getD (.arr [])) with
        | .error e => .error e
        | .ok es => .ok (.obj [("success", .bool false), ("test_result", r.1)], r.2,
            l0 :: "✗ Schema still has issues:" :: es.map (fun x => "  - " ++ pyStr x))

/-! ## Concrete fixtures (default configuration and stores) -/

/-- The default configuration: `SCHEMA_DIR`, `OUTPUT_DIR`,
`MCP_SERVER_URL` unset in the environment. -/
def fx0 : Fixer :=
  ⟨"FactoryForge/Assets", ".machine-ui-test-results", "http://localhost:8080"⟩

/-- The test result of the C5 scenario. -/
def tr5 : Json := .obj [
  ("success", .bool false),
  ("errors", .arr [.str "Schema validation failed: missing header in group 2"]),
  ("warnings", .arr [])]

/-- Store holding only the C5 scenario result for `furnace`. -/
def st5 : FS := emptyFS.write (resultPath fx0 "furnace") (.jsonFile tr5)

/-! ## Substring theory

Characterizations of `prefCL` and `hasSub`, and an occurrence-splitting
lemma for concatenations, used to show which headings a generated prompt
can contain. -/

theorem prefCL_iff (p : List Char) : ∀ l, prefCL p l = true ↔ ∃ t, l = p ++ t := by
  induction p with
  | nil => intro l; simp [prefCL]
  | cons a as ih =>
    intro l
    cases l with
    | nil => simp [prefCL]
    | cons b bs =>
      simp only [prefCL, Bool.and_eq_true, beq_iff_eq, ih, List.cons_append]
      constructor
      · rintro ⟨rfl, t, rfl⟩; exact ⟨t, rfl⟩
      · rintro ⟨t, ht⟩
        injection ht with h1 h2
        exact ⟨h1.symm, t, h2⟩

theorem hasSub_iff (p : List Char) : ∀ l, hasSub p l = true ↔ ∃ x y, l = x ++ p ++ y := by
  intro l
  induction l with
  | nil =>
    simp only [hasSub, prefCL_iff]
    constructor
    · rintro ⟨t, ht⟩; exact ⟨[], t, ht⟩
    · rintro ⟨x, y, h⟩
      have h' := h.symm
      simp only [List.append_eq_nil] at h'
      exact ⟨[], by simp [h'.1.2]⟩
  | cons b bs ih =>
    simp only [hasSub, Bool.or_eq_true, prefCL_iff, ih]
    constructor
    · rintro (⟨t, ht⟩ | ⟨x, y, h⟩)
      · exact ⟨[], t, by simpa using ht⟩
      · exact ⟨b :: x, y, by simp [h]⟩
    · rintro ⟨x, y, h⟩
      cases x with
      | nil => exact Or.inl ⟨y, by simpa using h⟩
      | cons c cs =>
        injection h with h1 h2
        exact Or.inr ⟨cs, y, h2⟩

theorem hasSub_of_pref {q p : List Char} (h : prefCL q p = true) {l : List Char}
    (hl : hasSub p l = true) : hasSub q l = true := by
  rcases (prefCL_iff q p).1 h with ⟨t, rfl⟩
  rcases (hasSub_iff _ l).1 hl with ⟨x, y, rfl⟩
  exact (hasSub_iff _ _).2 ⟨x, t ++ y, by simp⟩

theorem hasSub_trans {q p l : List Char} (hq : hasSub q p = true)
    (hp : hasSub p l = true) : hasSub q l = true := by
  rcases (hasSub_iff _ _).1 hq with ⟨u, v, rfl⟩
  rcases (hasSub_iff _ _).1 hp with ⟨x, y, rfl⟩
  exact (hasSub_iff _ _).2 ⟨x ++ u, v ++ y, by simp⟩

theorem mem_of_hasSub {p l : List Char} {c : Char} (h : hasSub p l = true)
    (hc : c ∈ p) : c ∈ l := by
  rcases (hasSub_iff _ _).1 h with ⟨x, y, rfl⟩
  simp [hc]

/-- An occurrence of `p` in `a ++ b` lies in `a`, lies in `b`, or splits at
the boundary: a nonempty proper prefix of `p` ends `a` and the matching
remainder starts `b`. -/
theorem hasSub_append_cases {p a b : List Char} (h : hasSub p (a ++ b) = true) :
    hasSub p a = true ∨ hasSub p b = true ∨
    ∃ n, 0 < n ∧ n < p.length ∧ (∃ u, a = u ++ p.take n) ∧ (∃ v, b = p.drop n ++ v) := by
  rcases (hasSub_iff _ _).1 h with ⟨x, y, hxy⟩
  rw [List.append_assoc] at hxy
  rcases List.append_eq_append_iff.1 hxy with ⟨x2, hx, hb⟩ | ⟨x2, ha, hpy⟩
  · exact Or.inr (Or.inl ((hasSub_iff _ _).2 ⟨x2, y, by rw [hb, List.append_assoc]⟩))
  · rcases List.append_eq_append_iff.1 hpy with ⟨p2, hx2, hy⟩ | ⟨w, hp, hbw⟩
    · refine Or.inl ((hasSub_iff _ _).2 ⟨x, p2, ?_⟩)
      rw [ha, hx2, List.append_assoc]
    · cases hw : w with
      | nil =>
        refine Or.inl ((hasSub_iff _ _).2 ⟨x, [], ?_⟩)
        rw [ha, hp, hw, List.append_nil, List.append_nil]
      | cons w0 ws =>
        cases hx2 : x2 with
        | nil =>
          refine Or.inr (Or.inl ((hasSub_iff _ _).2 ⟨[], y, ?_⟩))
          rw [hbw, hp, hx2]
          simp
        | cons c cs =>
          refine Or.inr (Or.inr ⟨x2.length, ?_, ?_, ⟨x, ?_⟩, ⟨y, ?_⟩⟩)
          · rw [hx2]; simp
          · rw [hp, hw]
            simp only [List.length_append, List.length_cons]
            omega
          · rw [ha, hp, List.take_left]
          · rw [hbw, hp, List.drop_left]

/-! ## Hash safety: no `###` can appear, so no injected headings -/

/-- The triple hash that starts every `###`-heading. -/
def h3 : List Char := ['#', '#', '#']

/-- Whether a character list ends with `#`. -/
def endsHash (l : List Char) : Bool :=
  match l.reverse with
  | [] => false
  | c :: _ => c == '#'

/-- A list is hash-safe when it contains no `###` run and does not end in
`#`; hash safety is preserved by concatenation and rules out every
`###`-prefixed heading. -/
def hashSafe (l : List Char) : Prop := hasSub h3 l = false ∧ endsHash l = false

instance hashSafeDecidable (l : List Char) : Decidable (hashSafe l) :=
  inferInstanceAs (Decidable (_ ∧ _))

theorem endsHash_append {a b : List Char} (ha : endsHash a = false)
    (hb : endsHash b = false) : endsHash (a ++ b) = false := by
  cases hr : b.reverse with
  | nil =>
    have hb0 : b = [] := List.reverse_eq_nil_iff.1 hr
    subst hb0
    simpa using ha
  | cons d ds =>
    unfold endsHash
    rw [List.reverse_append, hr]
    unfold endsHash at hb
    rw [hr] at hb
    simpa using hb

theorem endsHash_of_concat {u : List Char} : endsHash (u ++ ['#']) = true := by
  unfold endsHash
  rw [List.reverse_append]
  simp

theorem h3_hasSub_append {a b : List Char} (ha : hasSub h3 a = false)
    (hb : hasSub h3 b = false) (he : endsHash a = false) :
    hasSub h3 (a ++ b) = false := by
  by_contra hc
  rw [Bool.not_eq_false] at hc
  rcases hasSub_append_cases hc with h | h | ⟨n, hn0, hn3, ⟨u, hu⟩, -⟩
  · rw [ha] at h; exact Bool.false_ne_true h
  · rw [hb] at h; exact Bool.false_ne_true h
  · have hn3' : n < 3 := by simpa [h3] using hn3
    interval_cases n
    · have : a = u ++ ['#'] := by simpa [h3] using hu
      rw [this, endsHash_of_concat] at he
      exact Bool.noConfusion he
    · have : a = (u ++ ['#']) ++ ['#'] := by
        rw [List.append_assoc]
        simpa [h3] using hu
      rw [this, endsHash_of_concat] at he
      exact Bool.noConfusion he

theorem hashSafe_append {a b : List Char} (ha : hashSafe a) (hb : hashSafe b) :
    hashSafe (a ++ b) :=
  ⟨h3_hasSub_append ha.1 hb.1 ha.2, endsHash_append ha.2 hb.2⟩

theorem hashSafe_of_not_mem {l : List Char} (h : '#' ∉ l) : hashSafe l := by
  constructor
  · by_contra hc
    rw [Bool.not_eq_false] at hc
    exact h (mem_of_hasSub hc (by simp [h3]))
  · unfold endsHash
    cases hr : l.reverse with
    | nil => rfl
    | cons c cs =>
      have hcl : c ∈ l := by
        rw [← List.mem_reverse, hr]; simp
      have : c ≠ '#' := fun hcc => h (hcc ▸ hcl)
      simpa using this

/-- A hash-safe list contains no pattern that starts with `###`. -/
theorem no_h3_pat_of_hashSafe {l : List Char} (hs : hashSafe l)
    {pat : List Char} (hp : prefCL h3 pat = true) : hasSub pat l = false := by
  by_contra hc
  rw [Bool.not_eq_false] at hc
  have h1 : hasSub h3 pat = true := by
    rcases (prefCL_iff _ _).1 hp with ⟨t, rfl⟩
    exact (hasSub_iff _ _).2 ⟨[], t, by simp⟩
  have := hasSub_trans h1 hc
  rw [hs.1] at this
  exact Bool.false_ne_true this

/-! ## Lemmas about the suggestion loop -/

/-- Each error contributes at most one fix entry, so the loop output is
never longer than its input. -/
theorem suggList_length (fx : Fixer) (key : String) :
    ∀ es fixes, suggList fx key es = .ok fixes → fixes.length ≤ es.length := by
  intro es
  induction es with
  | nil => intro fixes h; cases h; simp
  | cons e rest ih =>
    intro fixes h
    cases e with
    | str s =>
      unfold suggList at h
      cases hc : classifyError fx key s with
      | some f =>
        rw [hc] at h
        cases hr : suggList fx key rest with
        | error msg => rw [hr] at h; cases h
        | ok r =>
          rw [hr] at h
          cases h
          simpa using Nat.succ_le_succ (ih r hr)
      | none =>
        rw [hc] at h
        exact Nat.le_succ_of_le (ih fixes h)
    | null => cases h
    | bool b => cases h
    | num n => cases h
    | arr xs => cases h
    | obj fs => cases h

/-- A classified error contributes its fix entry to the loop output. -/
theorem suggList_mem (fx : Fixer) (key : String) {e : String} {f : Json}
    (hc : classifyError fx key e = some f) :
    ∀ es fixes, suggList fx key es = .ok fixes → (.str e) ∈ es → f ∈ fixes := by
  intro es
  induction es with
  | nil => intro fixes _ hm; cases hm
  | cons e0 rest ih =>
    intro fixes h hm
    rcases List.mem_cons.1 hm with he0 | hrest
    · cases he0
      unfold suggList at h
      rw [hc] at h
      cases hr : suggList fx key rest with
      | error msg => rw [hr] at h; cases h
      | ok r => rw [hr] at h; cases h; simp
    · cases e0 with
      | str s =>
        unfold suggList at h
        cases hc0 : classifyError fx key s with
        | some f0 =>
          rw [hc0] at h
          cases hr : suggList fx key rest with
          | error msg => rw [hr] at h; cases h
          | ok r =>
            rw [hr] at h
            cases h
            exact List.mem_cons_of_mem _ (ih r hr hrest)
        | none =>
          rw [hc0] at h
          exact ih fixes h hrest
      | null => cases h
      | bool b => cases h
      | num n => cases h
      | arr xs => cases h
      | obj fs => cases h

/-- The loop never raises on a list of strings. -/
theorem suggList_total (fx : Fixer) (key : String) :
    ∀ es, allStr es = true → ∃ fixes, suggList fx key es = .ok fixes := by
  intro es
  induction es with
  | nil => intro _; exact ⟨[], rfl⟩
  | cons e rest ih =>
    intro h
    cases e with
    | str s =>
      have hr : allStr rest = true := by simpa [allStr] using h
      rcases ih hr with ⟨r, hrr⟩
      cases hc : classifyError fx key s with
      | some f => exact ⟨f :: r, by unfold suggList; rw [hc, hrr]; rfl⟩
      | none => exact ⟨r, by unfold suggList; rw [hc, hrr]⟩
    | null => cases h
    | bool b => cases h
    | num n => cases h
    | arr xs => cases h
    | obj fs => cases h

/-! ## Lemmas about `get_fix_suggestions` -/

/-- Direct evaluation of `get_fix_suggestions` on a truthy dict result
whose pieces are given. -/
theorem gfs_eval (fx : Fixer) (st : FS) (key : String) (trf : List (String × Json))
    (sc : Json) (its fixes : List Json) (snip : Json)
    (h1 : load_test_results fx st key = .ok (.obj trf))
    (h2 : load_schema fx st key = .ok sc)
    (ht : truthy (.obj trf) = true)
    (hit : iterJ ((lookupF trf "errors").getD (.arr [])) = .ok its)
    (hsl : suggList fx key its = .ok fixes)
    (hsn : (if truthy sc then snippetOf sc else .ok (.obj [])) = .ok snip) :
    get_fix_suggestions fx st key = .ok (.obj [
      ("machine_type", .str key),
      ("schema_file", .str (schemaPath fx key)),
      ("errors", (lookupF trf "errors").getD (.arr [])),
      ("warnings", (lookupF trf "warnings").getD (.arr [])),
      ("fixes_needed", .arr fixes),
      ("schema_snippet", snip)]) := by
  simp only [get_fix_suggestions, h1, h2, ht, hit, hsl, hsn, if_true]

/-- Inversion: a successful `get_fix_suggestions` is the sentinel or the
normal suggestions object built from a truthy dict result. -/
theorem gfs_inv (fx : Fixer) (st : FS) (key : String) (s : Json)
    (h : get_fix_suggestions fx st key = .ok s) :
    s = sentinelObj ∨
    ∃ trf its fixes snip,
      load_test_results fx st key = .ok (.obj trf) ∧
      truthy (.obj trf) = true ∧
      iterJ ((lookupF trf "errors").getD (.arr [])) = .ok its ∧
      suggList fx key its = .ok fixes ∧
      s = .obj [
        ("machine_type", .str key),
        ("schema_file", .str (schemaPath fx key)),
        ("errors", (lookupF trf "errors").getD (.arr [])),
        ("warnings", (lookupF trf "warnings").getD (.arr [])),
        ("fixes_needed", .arr fixes),
        ("schema_snippet", snip)] := by
  unfold get_fix_suggestions at h
  cases h1 : load_test_results fx st key with
  | error e => rw [h1] at h; cases h
  | ok tr =>
    rw [h1] at h
    dsimp only at h
    cases h2 : load_schema fx st key with
    | error e => rw [h2] at h; cases h
    | ok sc =>
      rw [h2] at h
      dsimp only at h
      by_cases ht : truthy tr = true
      · rw [if_pos ht] at h
        cases tr with
        | obj trf =>
          dsimp only at h
          cases hit : iterJ ((lookupF trf "errors").getD (.arr [])) with
          | error e => rw [hit] at h; cases h
          | ok its =>
            rw [hit] at h
            dsimp only at h
            cases hsl : suggList fx key its with
            | error e => rw [hsl] at h; cases h
            | ok fixes =>
              rw [hsl] at h
              dsimp only at h
              cases hsn : (if truthy sc then snippetOf sc else .ok (.obj [])) with
              | error e => rw [hsn] at h; cases h
              | ok snip =>
                rw [hsn] at h
                dsimp only at h
                cases h
                exact Or.inr ⟨trf, its, fixes, snip, rfl, ht, hit, hsl, rfl⟩
        | null => cases ht
        | bool b => cases h
        | num n => cases h
        | str ss => cases h
        | arr xs => cases h
      · rw [if_neg ht] at h
        cases h
        exact Or.inl rfl

/-! ## Claim theorems -/

/-- C1: the fix workflow does NOT satisfy the claimed no-crash contract.
When the test call fails (here: a connection error) and no test-result
file exists for the key, `get_fix_suggestions` returns the sentinel
`{"error": "No test results found"}`, and `generate_llm_prompt` then
indexes `suggestions['schema_file']` on it, raising an uncaught KeyError
inside `run_fix_workflow` instead of returning the claimed
`{success: false, fixes_needed: true, ...}` structure. -/
theorem c1_run_fix_workflow_keyerror_on_missing_results :
    run_fix_workflow fx0 emptyFS (.fail "Connection refused") "furnace"
      = .error "KeyError: schema_file" := rfl

/-- C2: when the remote test call fails in any of the modelled ways (the
exception carries message `msg`), `test_schema` returns exactly
`{success: false, error: msg}` and leaves the whole filesystem — in
particular the test-result file for the key — unchanged; the `error`
field is the exception message, hence non-empty whenever the message is. -/
theorem c2_test_schema_failure_no_write (fx : Fixer) (st : FS) (key msg : String)
    (h : msg ≠ "") :
    test_schema fx st (.fail msg) key
      = (.obj [("success", .bool false), ("error", .str msg)], st) ∧
    ∃ emsg, pyGet (test_schema fx st (.fail msg) key).1 "error" = some (.str emsg)
      ∧ emsg ≠ "" :=
  ⟨rfl, msg, rfl, h⟩

/-- Witness for C2 at a concrete failing call. -/
theorem c2_test_schema_failure_no_write_witness :
    test_schema fx0 emptyFS (.fail "Connection refused") "furnace"
      = (.obj [("success", .bool false), ("error", .str "Connection refused")], emptyFS) ∧
    ∃ emsg, pyGet (test_schema fx0 emptyFS (.fail "Connection refused") "furnace").1 "error"
      = some (.str emsg) ∧ emsg ≠ "" :=
  c2_test_schema_failure_no_write fx0 emptyFS "furnace" "Connection refused" (by decide)

/-- C3: a successful `save_schema` followed by `load_schema` on the same
key returns exactly the saved document (the two accessors address the same
file path and the save is a full overwrite). -/
theorem c3_save_load_roundtrip (fx : Fixer) (st : FS) (key : String) (doc : Json) :
    (save_schema fx st key doc true).1 = true ∧
    load_schema fx (save_schema fx st key doc true).2 key = .ok doc := by
  constructor
  · rfl
  · unfold load_schema save_schema FS.write
    simp

/-- C5: on the stored result
`{"success": false, "errors": ["Schema validation failed: missing header in group 2"], "warnings": []}`
the suggestions carry exactly one fix entry, with issue
`Missing group header` and priority `high`. -/
theorem c5_missing_header_single_fix :
    (get_fix_suggestions fx0 st5 "furnace").toOption.map (fun s => pyGet s "fixes_needed")
      = some (some (.arr [.obj [
          ("issue", .str "Missing group header"),
          ("action", .str "Add \x27header\x27 field to all groups in schema"),
          ("priority", .str "high"),
          ("schema_section", .str "groups")]])) := rfl

/-- C8: when the result file (respectively the schema file) for a key does
not exist, the corresponding load returns the empty mapping and no
error. -/
theorem c8_load_absent_empty (fx : Fixer) (st : FS) (key : String)
    (h1 : st (resultPath fx key) = none) (h2 : st (schemaPath fx key) = none) :
    load_test_results fx st key = .ok (.obj []) ∧
    load_schema fx st key = .ok (.obj []) := by
  unfold load_test_results load_schema
  rw [h1, h2]
  exact ⟨rfl, rfl⟩

/-- Witness for C8 on the empty filesystem. -/
theorem c8_load_absent_empty_witness :
    load_test_results fx0 emptyFS "furnace" = .ok (.obj []) ∧
    load_schema fx0 emptyFS "furnace" = .ok (.obj []) :=
  c8_load_absent_empty fx0 emptyFS "furnace" rfl rfl

/-- The fix entry of the `process`/`label` branch (its action carries no
interpolation, so it is one fixed object). -/
def mplFix : Json := .obj [
  ("issue", .str "Missing process label"),
  ("action", .str "Add \x27label.text\x27 field to process in schema"),
  ("priority", .str "high"),
  ("schema_section", .str "process")]

/-- The fix entry of the `invalid`/`flow` branch. -/
def invFlowFix : Json := .obj [
  ("issue", .str "Invalid flow position"),
  ("action", .str "Check group anchor positions relative to process anchor"),
  ("priority", .str "medium"),
  ("schema_section", .str "groups")]

/-- C4: the error string `missing process label` (which contains both
`process` and `label`) is classified by the `missing` tier as the
`Missing process label` suggestion — not as `Invalid flow position` — and
that entry reaches `fixes_needed` whenever the error is in the loaded
errors list. -/
theorem c4_missing_tier_before_flow_tier (fx : Fixer) (st : FS) (key : String)
    (s : Json) (es fl : List Json)
    (h : get_fix_suggestions fx st key = .ok s)
    (he : pyGet s "errors" = some (.arr es))
    (hm : (Json.str "missing process label") ∈ es)
    (hf : pyGet s "fixes_needed" = some (.arr fl)) :
    classifyError fx key "missing process label" = some mplFix ∧
    mplFix ∈ fl ∧ mplFix ≠ invFlowFix := by
  have hcl : classifyError fx key "missing process label" = some mplFix := rfl
  refine ⟨hcl, ?_, ?_⟩
  · rcases gfs_inv fx st key s h with hs | ⟨trf, its, fixes, snip, h1, ht, hit, hsl, hs⟩
    · rw [hs] at hf
      simp [sentinelObj, pyGet, lookupF] at hf
    · subst hs
      simp [pyGet, lookupF] at he hf
      rw [he] at hit
      have hits : es = its := by
        simpa [iterJ] using hit
      subst hits
      rw [← hf]
      exact suggList_mem fx key hcl es fixes hsl hm
  · intro hh
    have hcg := congrArg (fun j => pyGet j "issue") hh
    simp [mplFix, invFlowFix, pyGet, lookupF] at hcg

/-- The C4 witness store: one cached result for `mixer` whose single error
is `missing process label`. -/
def st4 : FS := emptyFS.write (resultPath fx0 "mixer")
  (.jsonFile (.obj [
    ("success", .bool false),
    ("errors", .arr [.str "missing process label"]),
    ("warnings", .arr [])]))

/-- Witness for C4 on the concrete `mixer` store. -/
theorem c4_missing_tier_before_flow_tier_witness :
    classifyError fx0 "mixer" "missing process label" = some mplFix ∧
    mplFix ∈ [mplFix] ∧ mplFix ≠ invFlowFix :=
  c4_missing_tier_before_flow_tier fx0 st4 "mixer"
    (.obj [
      ("machine_type", .str "mixer"),
      ("schema_file", .str (schemaPath fx0 "mixer")),
      ("errors", .arr [.str "missing process label"]),
      ("warnings", .arr []),
      ("fixes_needed", .arr [mplFix]),
      ("schema_snippet", .obj [])])
    [.str "missing process label"] [mplFix] rfl rfl (by simp) rfl

/-- C6: in the verify flow, when the test response reports success, the
returned structure is `{success: true, test_result: <result>}` for every
reload outcome; a failed reload only contributes the printed warning
line. -/
theorem c6_verify_success_independent_of_reload (fx : Fixer) (st : FS) (key : String)
    (tb : Json) (so : Option Json) (r : HttpOutcome)
    (h1 : dictGet tb "success" = .ok so)
    (h2 : truthy (so.getD .null) = true) :
    ∃ res, verify_fix fx st (.ok tb) r key = .ok res ∧
      res.1 = .obj [("success", .bool true), ("test_result", tb)] ∧
      (reload_schema r = false →
        "⚠ Could not reload schema (app may not be running)" ∈ res.2.2) := by
  refine ⟨(.obj [("success", .bool true), ("test_result", tb)],
           FS.write st (resultPath fx key) (.jsonFile tb),
           ["Verifying fix for: " ++ key,
            "✓ Schema for " ++ key ++ " is now valid!",
            "Reloading schema in app...",
            if reload_schema r then "✓ Schema reloaded successfully!"
            else "⚠ Could not reload schema (app may not be running)"]),
          ?_, rfl, ?_⟩
  · simp only [verify_fix, test_schema, h1, h2, eq_self_iff_true, if_true]
  · intro hrel
    rw [hrel]
    simp

/-- Witness for C6: successful test body, failing reload. -/
theorem c6_verify_success_independent_of_reload_witness :
    ∃ res, verify_fix fx0 emptyFS (.ok (.obj [("success", .bool true)]))
        (.fail "Connection refused") "furnace" = .ok res ∧
      res.1 = .obj [("success", .bool true),
                    ("test_result", .obj [("success", .bool true)])] ∧
      (reload_schema (.fail "Connection refused") = false →
        "⚠ Could not reload schema (app may not be running)" ∈ res.2.2) :=
  c6_verify_success_independent_of_reload fx0 emptyFS "furnace"
    (.obj [("success", .bool true)]) (some (.bool true)) (.fail "Connection refused")
    rfl rfl

/-- Well-formedness of a test result as the generator's loop needs it: a
dict whose `errors` value (defaulting to the empty list) is a list of
strings. -/
def wfTR : Json → Bool
  | .obj fs =>
    match (lookupF fs "errors").getD (.arr []) with
    | .arr es => allStr es
    | _ => false
  | _ => false

/-- Well-formedness of a loaded schema as the snippet computation needs
it: either falsy (snippet skipped) or a dict whose `groups` value
(defaulting to the empty list) has a `len`. -/
def snippetOk : Json → Bool
  | .obj fs =>
    match (lookupF fs "groups").getD (.arr []) with
    | .arr _ => true
    | .obj _ => true
    | .str _ => true
    | _ => false
  | j => !truthy j

/-- The snippet step never raises on a well-formed schema. -/
theorem snippet_total {sc : Json} (h : snippetOk sc = true) :
    ∃ snip, (if truthy sc then snippetOf sc else .ok (.obj [])) = .ok snip := by
  by_cases ht : truthy sc = true
  · rw [if_pos ht]
    cases sc with
    | obj fs =>
      unfold snippetOf
      unfold snippetOk at h
      dsimp only at h ⊢
      cases hg : (lookupF fs "groups").getD (.arr []) with
      | arr xs => exact ⟨_, rfl⟩
      | obj gs => exact ⟨_, rfl⟩
      | str s => exact ⟨_, rfl⟩
      | null => rw [hg] at h; cases h
      | bool b => rw [hg] at h; cases h
      | num n => rw [hg] at h; cases h
    | null => cases ht
    | bool b => unfold snippetOk at h; dsimp only at h; rw [ht] at h; cases h
    | num n => unfold snippetOk at h; dsimp only at h; rw [ht] at h; cases h
    | str s => unfold snippetOk at h; dsimp only at h; rw [ht] at h; cases h
    | arr xs => unfold snippetOk at h; dsimp only at h; rw [ht] at h; cases h
  · rw [if_neg ht]
    exact ⟨.obj [], rfl⟩

/-- C7 (amended): the generator returns the sentinel iff the loaded test
result is falsy — which happens when no result file exists, but also when
an existing file holds a falsy value such as `{}` — and on a truthy,
well-formed loaded result it returns a non-sentinel suggestions object
carrying all six fields. -/
theorem c7_sentinel_iff_falsy_result (fx : Fixer) (st : FS) (key : String)
    (tr sc : Json)
    (h1 : load_test_results fx st key = .ok tr)
    (h2 : load_schema fx st key = .ok sc)
    (h3 : truthy tr = true → wfTR tr = true ∧ snippetOk sc = true) :
    (get_fix_suggestions fx st key = .ok sentinelObj ↔ truthy tr = false) ∧
    (truthy tr = true → ∃ s, get_fix_suggestions fx st key = .ok s ∧
      s ≠ sentinelObj ∧
      (pyGet s "machine_type").isSome ∧ (pyGet s "schema_file").isSome ∧
      (pyGet s "errors").isSome ∧ (pyGet s "warnings").isSome ∧
      (pyGet s "fixes_needed").isSome ∧ (pyGet s "schema_snippet").isSome) := by
  have hnormal : truthy tr = true → ∃ s, get_fix_suggestions fx st key = .ok s ∧
      s ≠ sentinelObj ∧
      (pyGet s "machine_type").isSome ∧ (pyGet s "schema_file").isSome ∧
      (pyGet s "errors").isSome ∧ (pyGet s "warnings").isSome ∧
      (pyGet s "fixes_needed").isSome ∧ (pyGet s "schema_snippet").isSome := by
    intro ht
    obtain ⟨hwf, hsn⟩ := h3 ht
    cases tr with
    | obj trf =>
      unfold wfTR at hwf
      dsimp only at hwf
      cases hev : (lookupF trf "errors").getD (.arr []) with
      | arr es =>
        rw [hev] at hwf
        obtain ⟨fixes, hfx⟩ := suggList_total fx key es hwf
        obtain ⟨snip, hsnip⟩ := snippet_total hsn
        have hit : iterJ ((lookupF trf "errors").getD (.arr [])) = .ok es := by
          rw [hev]; rfl
        refine ⟨_, gfs_eval fx st key trf sc es fixes snip h1 h2 ht hit hfx hsnip,
                ?_, ?_, ?_, ?_, ?_, ?_, ?_⟩
        · intro hh
          have hcg := congrArg (fun j => pyGet j "machine_type") hh
          simp [sentinelObj, pyGet, lookupF] at hcg
        all_goals simp [pyGet, lookupF]
      | null => rw [hev] at hwf; cases hwf
      | bool b => rw [hev] at hwf; cases hwf
      | num n => rw [hev] at hwf; cases hwf
      | str s => rw [hev] at hwf; cases hwf
      | obj gs => rw [hev] at hwf; cases hwf
    | null => cases ht
    | bool b => unfold wfTR at hwf; dsimp only at hwf; cases hwf
    | num n => unfold wfTR at hwf; dsimp only at hwf; cases hwf
    | str s => unfold wfTR at hwf; dsimp only at hwf; cases hwf
    | arr xs => unfold wfTR at hwf; dsimp only at hwf; cases hwf
  refine ⟨⟨?_, ?_⟩, hnormal⟩
  · intro hsent
    by_cases ht : truthy tr = true
    · obtain ⟨s, hs, hne, -⟩ := hnormal ht
      rw [hs] at hsent
      cases hsent
      exact absurd rfl hne
    · cases hb : truthy tr with
      | false => rfl
      | true => exact absurd hb ht
  · intro hfalse
    have ht : ¬ truthy tr = true := by rw [hfalse]; exact Bool.false_ne_true
    simp only [get_fix_suggestions, h1, h2]
    rw [if_neg ht]

/-- C7 counterexample to the claim as stated: a test-result file that
exists but holds the empty object still yields the sentinel, and a
test-result file holding a truthy non-dict makes the generator raise
rather than return a normal suggestions object. -/
def stEmptyRes : FS := emptyFS.write (resultPath fx0 "furnace") (.jsonFile (.obj []))

/-- Store whose cached result is a truthy JSON array (not a dict). -/
def stArrRes : FS := emptyFS.write (resultPath fx0 "furnace") (.jsonFile (.arr [.num 1]))

/-- C7 counterexample: both failure modes at concrete stores where a test
result file exists. -/
theorem c7_counterexample_existing_file :
    get_fix_suggestions fx0 stEmptyRes "furnace" = .ok sentinelObj ∧
    get_fix_suggestions fx0 stArrRes "furnace" = .error "AttributeError: get" :=
  ⟨rfl, rfl⟩

/-- The C7 witness store: an existing, truthy, well-formed result. -/
def stC : FS := emptyFS.write (resultPath fx0 "kiln")
  (.jsonFile (.obj [("success", .bool true)]))

/-- Witness for C7 on the `kiln` store. -/
theorem c7_sentinel_iff_falsy_result_witness :
    (get_fix_suggestions fx0 stC "kiln" = .ok sentinelObj ↔
      truthy (.obj [("success", .bool true)]) = false) ∧
    (truthy (.obj [("success", .bool true)]) = true →
      ∃ s, get_fix_suggestions fx0 stC "kiln" = .ok s ∧
        s ≠ sentinelObj ∧
        (pyGet s "machine_type").isSome ∧ (pyGet s "schema_file").isSome ∧
        (pyGet s "errors").isSome ∧ (pyGet s "warnings").isSome ∧
        (pyGet s "fixes_needed").isSome ∧ (pyGet s "schema_snippet").isSome) :=
  c7_sentinel_iff_falsy_result fx0 stC "kiln" (.obj [("success", .bool true)])
    (.obj []) rfl rfl (fun _ => ⟨rfl, rfl⟩)

/-- C10 counterexample to the claim as stated: the error
`missing gadget not found` contains `missing`, contains neither `header`
nor both `process` and `label`, and still contributes a fix entry,
because its `not found` substring fires the first rule tier. -/
theorem c10_counterexample_missing_not_found :
    strContains (lowerStr "missing gadget not found") "missing" = true ∧
    strContains (lowerStr "missing gadget not found") "header" = false ∧
    (strContains (lowerStr "missing gadget not found") "process" &&
      strContains (lowerStr "missing gadget not found") "label") = false ∧
    classifyError fx0 "furnace" "missing gadget not found"
      = some (.obj [
          ("issue", .str "Schema file missing"),
          ("action", .str "Create furnace_schema.json in FactoryForge/Assets"),
          ("priority", .str "high")]) :=
  ⟨rfl, rfl, rfl, rfl⟩

/-- C10 (amended): every successful run of the generator returns at most
one fix entry per error, so `fixes_needed` is never longer than the
errors list; and an error containing `missing` — and not `not found`,
which would fire the first tier — with neither `header` nor both
`process` and `label` contributes no entry even when it also contains
`invalid` or `flow`. -/
theorem c10_at_most_one_fix_per_error :
    (∀ (fx : Fixer) (st : FS) (key : String) (s : Json) (es fl : List Json),
      get_fix_suggestions fx st key = .ok s →
      pyGet s "errors" = some (.arr es) →
      pyGet s "fixes_needed" = some (.arr fl) →
      fl.length ≤ es.length) ∧
    (∀ (fx : Fixer) (key e : String),
      strContains (lowerStr e) "missing" = true →
      strContains (lowerStr e) "not found" = false →
      strContains (lowerStr e) "header" = false →
      (strContains (lowerStr e) "process" && strContains (lowerStr e) "label") = false →
      classifyError fx key e = none) := by
  constructor
  · intro fx st key s es fl h he hf
    rcases gfs_inv fx st key s h with hs | ⟨trf, its, fixes, snip, h1, ht, hit, hsl, hs⟩
    · rw [hs] at hf
      simp [sentinelObj, pyGet, lookupF] at hf
    · subst hs
      simp [pyGet, lookupF] at he hf
      rw [he] at hit
      have hits : es = its := by simpa [iterJ] using hit
      subst hits
      rw [← hf]
      exact suggList_length fx key es fixes hsl
  · intro fx key e hm hnf hh hpl
    have hff : strContains (lowerStr e) "file not found" = false := by
      by_contra hc
      rw [Bool.not_eq_false] at hc
      have hn : strContains (lowerStr e) "not found" = true :=
        hasSub_trans (by decide) hc
      rw [hnf] at hn
      exact Bool.false_ne_true hn
    unfold classifyError
    simp only [hnf, hff, hm, hh, hpl, Bool.or_self, Bool.or_true, Bool.false_or,
      if_false, if_true, Bool.false_eq_true, ite_false, ite_true]

/-- The suggestions object of the C5 store, used to instantiate the C10
length bound concretely. -/
def s5obj : Json := .obj [
  ("machine_type", .str "furnace"),
  ("schema_file", .str (schemaPath fx0 "furnace")),
  ("errors", .arr [.str "Schema validation failed: missing header in group 2"]),
  ("warnings", .arr []),
  ("fixes_needed", .arr [.obj [
      ("issue", .str "Missing group header"),
      ("action", .str "Add \x27header\x27 field to all groups in schema"),
      ("priority", .str "high"),
      ("schema_section", .str "groups")]]),
  ("schema_snippet", .obj [])]

/-- Witness for C10: both parts at concrete inputs. -/
theorem c10_at_most_one_fix_per_error_witness :
    ([Json.obj [
      ("issue", .str "Missing group header"),
      ("action", .str "Add \x27header\x27 field to all groups in schema"),
      ("priority", .str "high"),
      ("schema_section", .str "groups")]].length
      ≤ [Json.str "Schema validation failed: missing header in group 2"].length) ∧
    classifyError fx0 "furnace" "missing widget count" = none :=
  ⟨c10_at_most_one_fix_per_error.1 fx0 st5 "furnace" s5obj
      [.str "Schema validation failed: missing header in group 2"]
      [.obj [
        ("issue", .str "Missing group header"),
        ("action", .str "Add \x27header\x27 field to all groups in schema"),
        ("priority", .str "high"),
        ("schema_section", .str "groups")]] rfl rfl rfl,
   c10_at_most_one_fix_per_error.2 fx0 "furnace" "missing widget count"
      rfl rfl rfl rfl⟩

/-- Evaluation of `generate_llm_prompt` when the loaded result is truthy
with empty errors and warnings: no errors, warnings or fixes section is
rendered and the prompt is the fixed frame around the key, the schema
path and the truncated schema dump. -/
theorem gllm_empty_eval (fx : Fixer) (st : FS) (key : String)
    (trf : List (String × Json)) (sc snip : Json)
    (h1 : load_test_results fx st key = .ok (.obj trf))
    (h2 : load_schema fx st key = .ok sc)
    (ht : truthy (.obj trf) = true)
    (he : (lookupF trf "errors").getD (.arr []) = .arr [])
    (hw : (lookupF trf "warnings").getD (.arr []) = .arr [])
    (hsnip : (if truthy sc then snippetOf sc else .ok (.obj [])) = .ok snip) :
    generate_llm_prompt fx st key = .ok (
      "# Fix MachineUI Schema: " ++ key ++ "\n\n## Current Issues\n\n"
      ++ "" ++ "" ++ ""
      ++ "## Schema File Location\n" ++ schemaPath fx key
      ++ "\n\n## Current Schema Structure\n```json\n"
      ++ strTake (dumps sc) 1000
      ++ "...\n```\n\n## Task\nPlease fix the schema file to resolve the errors and warnings listed above.\nThe schema file is located at: "
      ++ schemaPath fx key
      ++ "\n\nAfter fixing, the schema will be automatically tested and reloaded in the app.\n") := by
  have hit : iterJ ((lookupF trf "errors").getD (.arr [])) = .ok [] := by
    rw [he]; rfl
  have hgfs := gfs_eval fx st key trf sc [] [] snip h1 h2 ht hit rfl hsnip
  rw [he, hw] at hgfs
  simp only [generate_llm_prompt, hgfs, h2]
  rfl

/-- C9 (amended): when a truthy test result with empty errors and empty
warnings is cached and the machine-type key, the schema directory and the
serialized schema text contain no `#` character, the generated prompt
contains neither the `### Errors:` nor the `### Warnings:` heading.
Without the no-`#` proviso the statement fails: the key and the schema
text are interpolated verbatim, so they can inject the headings. -/
theorem c9_no_headings_when_lists_empty (fx : Fixer) (st : FS) (key : String)
    (trf : List (String × Json)) (sc : Json)
    (h1 : load_test_results fx st key = .ok (.obj trf))
    (h2 : load_schema fx st key = .ok sc)
    (ht : truthy (.obj trf) = true)
    (he : (lookupF trf "errors").getD (.arr []) = .arr [])
    (hw : (lookupF trf "warnings").getD (.arr []) = .arr [])
    (hsn : snippetOk sc = true)
    (hk : '#' ∉ key.data)
    (hd : '#' ∉ fx.schema_dir.data)
    (hs : '#' ∉ (dumps sc).data) :
    ∃ p, generate_llm_prompt fx st key = .ok p ∧
      strContains p "### Errors:" = false ∧
      strContains p "### Warnings:" = false := by
  obtain ⟨snip, hsnip⟩ := snippet_total hsn
  have hsafeDump : hashSafe (strTake (dumps sc) 1000).data :=
    hashSafe_of_not_mem (fun hmem => hs (List.take_subset _ _ hmem))
  have hmt : ("" : String).data = ([] : List Char) := rfl
  refine ⟨_, gllm_empty_eval fx st key trf sc snip h1 h2 ht he hw hsnip, ?_, ?_⟩ <;>
  · unfold strContains
    refine no_h3_pat_of_hashSafe ?_ (by decide)
    simp only [schemaPath, String.data_append, hmt, List.append_nil, List.nil_append]
    repeat' apply hashSafe_append
    all_goals first
      | exact hashSafe_of_not_mem hk
      | exact hashSafe_of_not_mem hd
      | exact hsafeDump
      | decide

/-- The C9 counterexample store: a result with empty errors and warnings
cached for the heading-shaped key. -/
def st9cex : FS := emptyFS.write (resultPath fx0 "### Errors: injected")
  (.jsonFile (.obj [
    ("success", .bool false), ("errors", .arr []), ("warnings", .arr [])]))

/-- C9 counterexample to the claim as stated: a machine-type key containing
the heading text is interpolated into the prompt title, so the prompt
contains `### Errors:` although the cached result has empty errors and
empty warnings. -/
theorem c9_counterexample_key_injection :
    load_test_results fx0 st9cex "### Errors: injected" = .ok (.obj [
      ("success", .bool false), ("errors", .arr []), ("warnings", .arr [])]) ∧
    (generate_llm_prompt fx0 st9cex "### Errors: injected").toOption.map
      (fun p => strContains p "### Errors:") = some true :=
  ⟨rfl, rfl⟩

/-- The C9 witness store: the same empty result cached for `mixer`. -/
def st9w : FS := emptyFS.write (resultPath fx0 "mixer")
  (.jsonFile (.obj [
    ("success", .bool false), ("errors", .arr []), ("warnings", .arr [])]))

/-- Witness for C9 on the `mixer` store with no schema file. -/
theorem c9_no_headings_when_lists_empty_witness :
    ∃ p, generate_llm_prompt fx0 st9w "mixer" = .ok p ∧
      strContains p "### Errors:" = false ∧
      strContains p "### Warnings:" = false :=
  c9_no_headings_when_lists_empty fx0 st9w "mixer"
    [("success", .bool false), ("errors", .arr []), ("warnings", .arr [])]
    (.obj []) rfl rfl rfl rfl rfl rfl (by decide) (by decide) (by decide)
